import Mathlib

/-!
Shallow embedding of the Rolodex backend (src/backend) used to check the
specification's claims about the item retrieval/ranking pipeline, item CRUD
and project aggregation.

Modelling conventions:
* A database table is a `List` of rows (insertion order = storage order).
* `created_at` timestamps are `Nat`.  The API transports cursors as ISO-8601
  strings produced by `_to_iso` and parsed by `_parse_cursor`; for timestamps
  produced by the server this is a round trip, so the cursor channel is
  modelled as `Option Timestamp`, where `none` also covers an absent, empty or
  malformed cursor (`_parse_cursor` degrades to `None` on parse failure).
* SQL `Float` prices are modelled as `Option Int` (only order and Python
  truthiness of prices matter to the claims).
* The external pgvector distance operator is abstract: `sim : Item → Rat`
  models the per-row similarity `1 - (it.embedding <=> query_embedding)`
  computed in `StorageService.search_by_embedding`; the SQL's
  `ORDER BY embedding <=> query` (ascending distance) is ordering by
  descending similarity, and its threshold predicate is `sim it > threshold`.
  The default threshold `0.7` is the rational `simThreshold = 7/10`, written
  in normal form so that proofs can evaluate comparisons against it.
* Failures of external collaborators (object store, OpenAI embedding calls,
  vector retrieval) are explicit parameters (`Option`/`Bool`) of the modelled
  handlers, matching the `try/except` structure of the Python code.
-/

namespace Rolodex

abbrev Timestamp := Nat

/-- A row of the `items` table (backend/models.py, `items_table`). -/
structure Item where
  id : String
  owner_id : String
  img_url : String := ""
  title : Option String := none
  vendor : Option String := none
  price : Option Int := none
  currency : Option String := none
  description : Option String := none
  colour_hex : Option String := none
  category : Option String := none
  material : Option String := none
  src_url : Option String := none
  embedding : Option (List Rat) := none
  image_embedding : Option (List Rat) := none
  color_palette : Option (List String) := none
  tags : Option (List String) := none
  style_tags : Option (List String) := none
  notes : Option String := none
  created_at : Timestamp := 0
  updated_at : Option Timestamp := none
deriving Repr, DecidableEq

/-- A row of the `projects` table. -/
structure Project where
  id : String
  owner_id : String
  name : String := ""
  budget : Option Int := none
  description : Option String := none
  created_at : Timestamp := 0
deriving Repr, DecidableEq

/-- A row of the `project_items` join table (composite primary key
`(project_id, item_id)`, foreign keys into `projects` and `items`). -/
structure ProjectItem where
  project_id : String
  item_id : String
  created_at : Timestamp := 0
deriving Repr, DecidableEq

/-! ### String helpers (Python `.lower()` / `in` and SQL `LIKE '%q%'`) -/

/-- Python `str.lower()` (ASCII is all the code compares), written on the
character list so that it evaluates by kernel reduction. -/
def lowerStr (s : String) : String := ⟨s.data.map Char.toLower⟩

/-- `needle` is a prefix of `hay` (on character lists). -/
def isPrefixCL : List Char → List Char → Bool
  | [], _ => true
  | _ :: _, [] => false
  | c :: cs, d :: ds => c == d && isPrefixCL cs ds

/-- `needle` occurs as a contiguous substring of `hay` (on character lists). -/
def charContains (needle : List Char) : List Char → Bool
  | [] => needle.isEmpty
  | c :: rest => isPrefixCL needle (c :: rest) || charContains needle rest

/-- Case-insensitive substring test: Python `needle.lower() in hay.lower()`,
equally SQL `lower(hay) LIKE '%' || lower(needle) || '%'`. -/
def strContainsCI (hay needle : String) : Bool :=
  charContains (lowerStr needle).toList (lowerStr hay).toList

/-- SQL `lower(col) LIKE '%q%'` on a nullable column: a NULL column never
matches (`NULL LIKE …` is not true). -/
def optLike (col : Option String) (q : String) : Bool :=
  match col with
  | none => false
  | some s => strContainsCI s q

/-- SQL `=` between nullable strings: NULL on either side never matches.
Used for comparisons whose right-hand side is a guaranteed-truthy request
string (`category == category` after `if category:` and the like). -/
def sqlEq : Option String → Option String → Bool
  | some a, some b => a == b
  | _, _ => false

/-- SQLAlchemy `column == value` where `value` is a Python Optional that may
be `None`: SQLAlchemy renders a comparison against `None` as
`column IS NULL`, so a `None` value matches exactly the NULL rows; a
non-`None` value renders as `column = value` (NULL rows never match). -/
def saEq (col v : Option String) : Bool :=
  match v with
  | none => col.isNone
  | some s =>
    match col with
    | none => false
    | some c => c == s

/-- Python truthiness of an optional string (`None` and `""` are falsy). -/
def strTruthy : Option String → Bool
  | none => false
  | some s => !s.isEmpty

/-- Python truthiness of an optional number (`None` and `0` are falsy). -/
def priceTruthy : Option Int → Bool
  | none => false
  | some p => !(p == 0)

/-- Python truthiness of an optional embedding (`None` and `[]` are falsy). -/
def embTruthy : Option (List Rat) → Bool
  | none => false
  | some e => !e.isEmpty

/-! ### Search requests and responses -/

/-- The filter parameters of `GET /api/items` (`list_items` in
backend/api/items.py). -/
structure Query where
  query : Option String := none
  hex : Option String := none
  price_max : Option Int := none
  category : Option String := none
  vendor : Option String := none
deriving Repr, DecidableEq

/-- The `ItemsResponse` payload: page of items, continuation cursor, and the
mode that actually produced the results. -/
structure ItemsResponse where
  items : List Item
  nextCursor : Option Timestamp := none
  search_type : String := "text"
deriving Repr, DecidableEq

/-- `limit = max(1, min(limit, 100))` (items.py line 232). -/
def clampLimit (limit : Nat) : Nat := max 1 (min limit 100)

/-- The conjunctive text-mode WHERE clause built in `list_items`
(items.py lines 272-290), minus the cursor predicate. -/
def textMatches (owner : String) (q : Query) (it : Item) : Bool :=
  it.owner_id == owner &&
  (match q.query with
   | none => true
   | some s => s.isEmpty ||
       (optLike it.title s || optLike it.vendor s ||
        optLike it.description s || optLike it.category s)) &&
  (match q.hex with
   | none => true
   | some h => h.isEmpty || optLike it.colour_hex h) &&
  (match q.price_max with
   | none => true
   | some pm => match it.price with
     | none => false
     | some p => decide (p ≤ pm)) &&
  (match q.category with
   | none => true
   | some c => c.isEmpty || sqlEq it.category (some c)) &&
  (match q.vendor with
   | none => true
   | some v => v.isEmpty || sqlEq it.vendor (some v))

/-- The cursor predicate `created_at < cursor` (items.py lines 291-293);
no predicate when the cursor is absent or unparseable. -/
def cursorOk (cursor : Option Timestamp) (it : Item) : Bool :=
  match cursor with
  | none => true
  | some t => decide (it.created_at < t)

/-- `ORDER BY created_at DESC` as a relation: `a` may come before `b`. -/
def createdDesc (a b : Item) : Prop := b.created_at ≤ a.created_at

instance : DecidableRel createdDesc := fun a b =>
  inferInstanceAs (Decidable (b.created_at ≤ a.created_at))

instance : IsTotal Item createdDesc :=
  ⟨fun a b => Nat.le_total b.created_at a.created_at⟩

instance : IsTrans Item createdDesc :=
  ⟨fun _ _ _ h1 h2 => Nat.le_trans h2 h1⟩

def sortByCreatedDesc (l : List Item) : List Item := l.insertionSort createdDesc

/-- Strictly more recent (the strict version of `createdDesc`). -/
def createdLt (a b : Item) : Prop := b.created_at < a.created_at

instance : DecidableRel createdLt := fun a b =>
  inferInstanceAs (Decidable (b.created_at < a.created_at))

instance : IsAntisymm Item createdLt :=
  ⟨fun _ _ h1 h2 => absurd h2 (Nat.lt_asymm h1)⟩

/-- The text-mode branch of `list_items` (items.py lines 272-337): filter,
order by `created_at` descending, `LIMIT`, and `nextCursor` = `created_at`
of the last row of the page (or null for an empty page). -/
def textListItems (db : List Item) (owner : String) (q : Query) (limit : Nat)
    (cursor : Option Timestamp) : ItemsResponse :=
  let L := clampLimit limit
  let rows := (sortByCreatedDesc
    ((db.filter (textMatches owner q)).filter (cursorOk cursor))).take L
  { items := rows
    nextCursor := rows.getLast?.map (·.created_at)
    search_type := "text" }

/-- The default similarity threshold `0.7` of
`StorageService.search_by_embedding`, as the rational `7/10` in normal form
(see `simThreshold_eq`). -/
def simThreshold : Rat := ⟨7, 10, by norm_num, by norm_num⟩

/-- `ORDER BY embedding <=> query` (ascending distance) is descending
similarity. -/
def simDesc (sim : Item → Rat) (a b : Item) : Prop := sim b ≤ sim a

instance (sim : Item → Rat) : DecidableRel (simDesc sim) := fun a b =>
  inferInstanceAs (Decidable (sim b ≤ sim a))

instance (sim : Item → Rat) : IsTotal Item (simDesc sim) :=
  ⟨fun a b => le_total (sim b) (sim a)⟩

instance (sim : Item → Rat) : IsTrans Item (simDesc sim) :=
  ⟨fun _ _ _ h1 h2 => le_trans h2 h1⟩

/-- `StorageService.search_by_embedding` (storage.py lines 226-272): empty
query embedding returns nothing; otherwise rows of the owner whose stored
embedding is non-NULL and whose similarity `sim` exceeds the threshold,
ordered by descending similarity (= ascending distance), capped at
`limit`. -/
def search_by_embedding (db : List Item) (sim : Item → Rat)
    (queryEmb : List Rat) (owner : String) (limit : Nat) (threshold : Rat) :
    List Item :=
  if queryEmb.isEmpty then []
  else
    ((db.filter (fun it =>
        it.owner_id == owner && it.embedding.isSome &&
        decide (sim it > threshold))).insertionSort (simDesc sim)).take limit

/-- `StorageService.semantic_search` (storage.py lines 274-289): the query
embedding `queryEmb` is the result of `generate_embedding` for the query
text, which returns `[]` both when the provider call fails and when the text
is empty; an empty embedding short-circuits to no results.  Threshold is the
default `0.7`. -/
def semantic_search (db : List Item) (sim : Item → Rat) (queryEmb : List Rat)
    (owner : String) (limit : Nat) : List Item :=
  if queryEmb.isEmpty then []
  else search_by_embedding db sim queryEmb owner limit simThreshold

/-- The post-retrieval filter applied to semantic results
(items.py lines 243-252).  Note the Python truthiness guards: a row with a
NULL/empty `colour_hex` is never rejected by the `hex` filter, and a row with
a NULL/zero `price` is never rejected by the `price_max` filter. -/
def semanticKeep (q : Query) (it : Item) : Bool :=
  !(strTruthy q.hex && strTruthy it.colour_hex &&
      !strContainsCI (it.colour_hex.getD "") (q.hex.getD "")) &&
  !(q.price_max.isSome && priceTruthy it.price &&
      decide (it.price.getD 0 > q.price_max.getD 0)) &&
  !(strTruthy q.category && !(it.category == q.category)) &&
  !(strTruthy q.vendor && !(it.vendor == q.vendor))

/-- `GET /api/items` handler `list_items` (items.py lines 217-337).
`queryEmb` is the outcome of embedding the query text (see
`semantic_search`); `semRaise` models `storage.semantic_search` raising, which
the handler catches and turns into an empty candidate list (lines 234-239).
A non-empty candidate list is post-filtered, truncated, and returned with a
null cursor as mode "semantic"; otherwise the handler falls through to the
text-mode query. -/
def list_items (db : List Item) (sim : Item → Rat) (queryEmb : List Rat)
    (semRaise : Bool) (owner : String) (q : Query) (limit : Nat)
    (cursor : Option Timestamp) (semantic : Bool) : ItemsResponse :=
  let L := clampLimit limit
  if semantic && strTruthy q.query then
    let semResults :=
      if semRaise then [] else semantic_search db sim queryEmb owner L
    if semResults.isEmpty then textListItems db owner q limit cursor
    else
      { items := (semResults.filter (semanticKeep q)).take L
        nextCursor := none
        search_type := "semantic" }
  else textListItems db owner q limit cursor

/-- Repeatedly call a paged endpoint, feeding each response's `nextCursor`
back as the cursor, stopping at the first response with a null cursor
(`fuel` bounds the number of calls). -/
def runChain (page : Option Timestamp → ItemsResponse) :
    Option Timestamp → Nat → List ItemsResponse
  | _, 0 => []
  | c, fuel + 1 =>
    let r := page c
    match r.nextCursor with
    | none => [r]
    | some t => r :: runChain page (some t) fuel

/-- All items collected across a chain of page responses, in order. -/
def joinPages : List ItemsResponse → List Item
  | [] => []
  | r :: rest => r.items ++ joinPages rest

/-! ### Item CRUD handlers -/

/-- The `ItemCreate` request body (all fields optional except `img_url`). -/
structure ItemCreate where
  img_url : String
  title : Option String := none
  vendor : Option String := none
  price : Option Int := none
  currency : Option String := none
  description : Option String := none
  colour_hex : Option String := none
  category : Option String := none
  material : Option String := none
  src_url : Option String := none
  tags : Option (List String) := none
  notes : Option String := none
deriving Repr, DecidableEq

/-- The `ItemOut` response model. -/
structure ItemOut where
  id : String
  img_url : String
  title : Option String := none
  vendor : Option String := none
  price : Option Int := none
  currency : Option String := none
  description : Option String := none
  colour_hex : Option String := none
  color_palette : Option (List String) := none
  category : Option String := none
  material : Option String := none
  tags : Option (List String) := none
  style_tags : Option (List String) := none
  notes : Option String := none
  created_at : Option Timestamp := none
deriving Repr, DecidableEq

/-- `POST /api/items` (`create_item`, items.py lines 142-214).
`storeOutcome` is the object-storage step: `some url` when
`storage.store_image` returned a stored URL, `none` when that step failed
(the handler catches the failure and keeps the originally submitted URL).
`palette` is the colour-palette extraction outcome (`none` on failure).
The insert writes `tags or []`; the response echoes the submitted fields and
does not include `created_at`. -/
def create_item (db : List Item) (owner : String) (payload : ItemCreate)
    (storeOutcome : Option String) (palette : Option (List String))
    (newId : String) (now : Timestamp) : List Item × ItemOut :=
  let stored := match storeOutcome with
    | some u => u
    | none => payload.img_url
  let row : Item :=
    { id := newId, owner_id := owner, img_url := stored
      title := payload.title, vendor := payload.vendor, price := payload.price
      currency := payload.currency, description := payload.description
      colour_hex := payload.colour_hex, category := payload.category
      material := payload.material, src_url := payload.src_url
      color_palette := palette
      tags := some (match payload.tags with | some t => t | none => [])
      notes := payload.notes, created_at := now }
  (db ++ [row],
   { id := newId, img_url := stored
     title := payload.title, vendor := payload.vendor, price := payload.price
     currency := payload.currency, description := payload.description
     colour_hex := payload.colour_hex, color_palette := palette
     category := payload.category, material := payload.material
     tags := payload.tags, notes := payload.notes, created_at := none })

/-- `GET /api/items/{id}` (`get_item`, items.py lines 422-459): the single
row with the given id owned by the caller, `none` meaning 404. -/
def get_item (db : List Item) (owner iid : String) : Option Item :=
  db.find? (fun it => it.id == iid && it.owner_id == owner)

/-- The `ItemUpdate` request body: the eleven recognized patch fields. -/
structure ItemUpdate where
  title : Option String := none
  vendor : Option String := none
  price : Option Int := none
  currency : Option String := none
  description : Option String := none
  colour_hex : Option String := none
  category : Option String := none
  material : Option String := none
  src_url : Option String := none
  tags : Option (List String) := none
  notes : Option String := none
deriving Repr, DecidableEq

/-- `updates = {k: v for k, v in payload.model_dump().items() if v is not None}`
is non-empty. -/
def hasUpdates (p : ItemUpdate) : Bool :=
  p.title.isSome || p.vendor.isSome || p.price.isSome || p.currency.isSome ||
  p.description.isSome || p.colour_hex.isSome || p.category.isSome ||
  p.material.isSome || p.src_url.isSome || p.tags.isSome || p.notes.isSome

/-- A provided field overrides the stored one; absent fields are untouched. -/
def patchField (new old : Option α) : Option α :=
  match new with
  | some v => some v
  | none => old

/-- Apply the recognized fields of a patch to a row, setting `updated_at`. -/
def applyPatch (p : ItemUpdate) (now : Timestamp) (it : Item) : Item :=
  { it with
    title := patchField p.title it.title
    vendor := patchField p.vendor it.vendor
    price := patchField p.price it.price
    currency := patchField p.currency it.currency
    description := patchField p.description it.description
    colour_hex := patchField p.colour_hex it.colour_hex
    category := patchField p.category it.category
    material := patchField p.material it.material
    src_url := patchField p.src_url it.src_url
    tags := patchField p.tags it.tags
    notes := patchField p.notes it.notes
    updated_at := some now }

/-- `PATCH /api/items/{id}` (`update_item`, items.py lines 462-523): an empty
patch is rejected with 400 before touching the database; then the row must
exist under the caller's ownership (else 404); the UPDATE statement itself
filters on `id` only.  Returns the resulting table and the response. -/
def update_item (db : List Item) (owner iid : String) (p : ItemUpdate)
    (now : Timestamp) : List Item × Except Nat Item :=
  if !hasUpdates p then (db, Except.error 400)
  else if db.all (fun it => !(it.id == iid && it.owner_id == owner)) then
    (db, Except.error 404)
  else
    let db2 := db.map (fun it => if it.id == iid then applyPatch p now it else it)
    match db2.find? (fun it => it.id == iid) with
    | some it => (db2, Except.ok it)
    | none => (db2, Except.error 404)

/-- `DELETE /api/items/{id}` (`delete_item`, items.py lines 526-547): delete
`WHERE id = … AND owner_id = caller`; 404 when no row was deleted. -/
def delete_item (db : List Item) (owner iid : String) : List Item × Nat :=
  let db2 := db.filter (fun it => !(it.id == iid && it.owner_id == owner))
  (db2, if db2.length == db.length then 404 else 204)

/-- `POST /api/items/batch-delete` (items.py lines 550-571): best-effort bulk
delete `WHERE id IN ids AND owner_id = caller`. -/
def batch_delete_items (db : List Item) (owner : String) (ids : List String) :
    List Item :=
  if ids.isEmpty then db
  else db.filter (fun it => !(ids.contains it.id && it.owner_id == owner))

/-- `GET /api/items/{id}/similar` (`find_similar_items`, items.py lines
574-665).  `vecRaises` models `storage.search_by_embedding` raising (caught
at lines 628-642).  Branches, exactly as in the code:
* source row absent/foreign → 404;
* source `image_embedding` falsy (NULL or `[]`) → structured fallback:
  same owner, excluding self, category equality only when the source category
  is truthy, `ORDER BY created_at DESC`, `LIMIT limit`;
* vector retrieval raises → fallback query with owner, self-exclusion and
  unconditional `category == source_item.get("category")`, which SQLAlchemy
  renders as `category IS NULL` when the source category is NULL (`saEq`),
  with `LIMIT` but **no ORDER BY** (rows keep storage order);
* otherwise vector retrieval with `limit + 1`, post-hoc self-exclusion,
  truncation to `limit`. -/
def find_similar_items (db : List Item) (sim : Item → Rat) (vecRaises : Bool)
    (owner iid : String) (limit : Nat) : Except Nat ItemsResponse :=
  match db.find? (fun it => it.id == iid && it.owner_id == owner) with
  | none => Except.error 404
  | some src =>
    let rows :=
      if !embTruthy src.image_embedding then
        (sortByCreatedDesc (db.filter (fun it =>
          it.owner_id == owner && !(it.id == iid) &&
          (!strTruthy src.category || sqlEq it.category src.category)))).take limit
      else if vecRaises then
        (db.filter (fun it =>
          it.owner_id == owner && !(it.id == iid) &&
          saEq it.category src.category)).take limit
      else
        ((search_by_embedding db sim (src.image_embedding.getD []) owner
            (limit + 1) simThreshold).filter (fun it => !(it.id == iid))).take limit
    Except.ok { items := rows, nextCursor := none, search_type := "similarity" }

/-! ### Project aggregation handlers -/

/-- The ownership check shared by the project item-link handlers. -/
def projectOwned (projects : List Project) (owner pid : String) : Bool :=
  projects.any (fun p => p.id == pid && p.owner_id == owner)

/-- A `(project_id, item_id)` join row is present. -/
def linkPresent (links : List ProjectItem) (pid iid : String) : Bool :=
  links.any (fun l => l.project_id == pid && l.item_id == iid)

/-- An item id exists in the `items` table (the `project_items.item_id`
foreign key target). -/
def itemExists (db : List Item) (iid : String) : Bool :=
  db.any (fun it => it.id == iid)

/-- `POST /api/projects/{id}/add_item` (projects.py lines 223-253): 404 when
the project is not owned by the caller; the INSERT raises `IntegrityError`
both on a duplicate `(project_id, item_id)` primary key and on an `item_id`
foreign-key violation, and the handler swallows it (`except IntegrityError:
pass`), returning 204 with the join table unchanged. -/
def add_item_to_project (projects : List Project) (itemsDb : List Item)
    (links : List ProjectItem) (owner pid iid : String) (now : Timestamp) :
    List ProjectItem × Nat :=
  if !projectOwned projects owner pid then (links, 404)
  else if linkPresent links pid iid || !itemExists itemsDb iid then (links, 204)
  else (links ++ [{ project_id := pid, item_id := iid, created_at := now }], 204)

/-- `POST /api/projects/{id}/remove_item` (projects.py lines 285-313): 404
when the project is not owned; otherwise delete the matching join rows (a
no-op when the pair is not linked) and return 204. -/
def remove_item_from_project (projects : List Project)
    (links : List ProjectItem) (owner pid iid : String) :
    List ProjectItem × Nat :=
  if !projectOwned projects owner pid then (links, 404)
  else (links.filter (fun l => !(l.project_id == pid && l.item_id == iid)), 204)

/-! ### Concrete fixtures used by counterexamples and witnesses -/

/-- A project owned by user `A`. -/
def fixProject : Project := { id := "p1", owner_id := "A", name := "P" }

/-- An item owned by user `A`. -/
def fixItemA : Item :=
  { id := "a1", owner_id := "A", img_url := "https://x/a.jpg",
    title := some "Lamp", created_at := 3 }

/-- An item owned by user `B`. -/
def fixItemB : Item :=
  { id := "b1", owner_id := "B", img_url := "https://x/b.jpg",
    title := some "Lamp", created_at := 4 }

/-- A row with id `x` owned by `A`, for the duplicate-primary-key probe. -/
def fixDupA : Item :=
  { id := "x", owner_id := "A", img_url := "https://x/da.jpg",
    title := some "a", created_at := 1 }

/-- A row sharing id `x` but owned by `B`: such a state violates the items
table's primary-key invariant, and is exactly where the absence of an
`owner_id` predicate on `update_item`'s UPDATE statement becomes visible. -/
def fixDupB : Item :=
  { id := "x", owner_id := "B", img_url := "https://x/db.jpg",
    title := some "b", created_at := 2 }

/-- Find-similar source item: has a non-empty image embedding and a category. -/
def fixSrc : Item :=
  { id := "s", owner_id := "A", img_url := "https://x/s.jpg",
    category := some "c", image_embedding := some [1], created_at := 10 }

/-- Older same-category item, stored before `fixNew`. -/
def fixOld : Item :=
  { id := "o", owner_id := "A", img_url := "https://x/o.jpg",
    category := some "c", created_at := 1 }

/-- Newer same-category item, stored after `fixOld`. -/
def fixNew : Item :=
  { id := "n", owner_id := "A", img_url := "https://x/n.jpg",
    category := some "c", created_at := 2 }

/-- Table for the find-similar fallback scenario: storage order puts the
older row before the newer one. -/
def fixDbSimilar : List Item := [fixSrc, fixOld, fixNew]

/-- An item with a stored text embedding but a NULL `colour_hex`. -/
def fixSemNoHex : Item :=
  { id := "e1", owner_id := "u", img_url := "https://x/e.jpg",
    embedding := some [1], colour_hex := none, created_at := 5 }

/-- An item with a stored text embedding and a colour. -/
def fixSemColoured : Item :=
  { id := "e2", owner_id := "u", img_url := "https://x/f.jpg",
    embedding := some [1], colour_hex := some "#FFAA00", created_at := 6 }

/-- Query with free text and a colour filter. -/
def fixQuerySofa : Query := { query := some "sofa", hex := some "aa" }

/-- Three items of one owner with pairwise distinct timestamps, for the
pagination scenario. -/
def fixPagedDb : List Item :=
  [{ id := "t1", owner_id := "A", img_url := "https://x/1.jpg",
     created_at := 1 },
   { id := "t2", owner_id := "A", img_url := "https://x/2.jpg",
     created_at := 2 },
   { id := "t3", owner_id := "A", img_url := "https://x/3.jpg",
     created_at := 3 }]

/-- The semantic-mode response of the C4 witness scenario. -/
def fixRespSofa : ItemsResponse :=
  { items := [fixSemColoured], nextCursor := none, search_type := "semantic" }

/-! ### C6: item creation preserves submitted fields, degrading on storage
failure -/

/-- C6: for every valid item-creation payload, the created item returned to
the caller has title, vendor, price, currency, description, colour_hex,
category, material, tags and notes equal to the submitted values, and
`img_url` equal to the storage-provided URL when the storage step succeeds or
to the originally submitted `img_url` when it fails; the handler returns a
created item (never an error) in both cases. -/
theorem claim6_create_preserves_fields (db : List Item) (owner : String)
    (payload : ItemCreate) (storeOutcome : Option String)
    (palette : Option (List String)) (newId : String) (now : Timestamp) :
    let out := (create_item db owner payload storeOutcome palette newId now).2
    out.title = payload.title ∧ out.vendor = payload.vendor ∧
    out.price = payload.price ∧ out.currency = payload.currency ∧
    out.description = payload.description ∧
    out.colour_hex = payload.colour_hex ∧ out.category = payload.category ∧
    out.material = payload.material ∧ out.tags = payload.tags ∧
    out.notes = payload.notes ∧
    out.img_url = (match storeOutcome with
      | some u => u
      | none => payload.img_url) := by
  cases storeOutcome <;> simp [create_item]

/-! ### C7: an empty patch is rejected atomically -/

/-- C7: an update request in which no recognized field carries a value fails
with client error 400 and leaves the items table entirely unchanged (no
write occurs, so `updated_at` is untouched as well). -/
theorem claim7_empty_patch_rejected (db : List Item) (owner iid : String)
    (p : ItemUpdate) (now : Timestamp) (h : hasUpdates p = false) :
    update_item db owner iid p now = (db, Except.error 400) := by
  simp [update_item, h]

/-- Witness for C7 at a concrete state: the all-absent patch is recognized-
field-free, and updating a one-row table with it returns 400 and the very
same table. -/
theorem claim7_witness :
    hasUpdates {} = false ∧
    update_item [fixItemA] "A" "a1" {} 7 = ([fixItemA], Except.error 400) :=
  ⟨by decide, claim7_empty_patch_rejected [fixItemA] "A" "a1" {} 7 (by decide)⟩

/-! ### C9: add-item swallows foreign-key violations -/

/-- C9: calling add-item on an owned project with an `item_id` that does not
exist in the items table hits the foreign-key `IntegrityError`, which the
handler swallows: the call returns success (204) and the join table is
unchanged. -/
theorem claim9_add_item_fk_swallowed (projects : List Project)
    (itemsDb : List Item) (links : List ProjectItem) (owner pid iid : String)
    (now : Timestamp) (hproj : projectOwned projects owner pid = true)
    (hmissing : itemExists itemsDb iid = false) :
    add_item_to_project projects itemsDb links owner pid iid now =
      (links, 204) := by
  simp [add_item_to_project, hproj, hmissing]

/-- Witness for C9: owner `A`'s project `p1`, an items table that does not
contain `ghost`, and an empty join table. -/
theorem claim9_witness :
    projectOwned [fixProject] "A" "p1" = true ∧
    itemExists [fixItemA] "ghost" = false ∧
    add_item_to_project [fixProject] [fixItemA] [] "A" "p1" "ghost" 0 =
      ([], 204) :=
  ⟨by decide, by decide,
    claim9_add_item_fk_swallowed [fixProject] [fixItemA] [] "A" "p1" "ghost" 0
      (by decide) (by decide)⟩

/-! ### C8: project membership idempotence -/

/-- C8 counterexample: the claim quantifies over *every* item id, but for an
item id absent from the items table the foreign-key `IntegrityError` is
swallowed: both add-item calls succeed (204) yet the join table ends with
zero rows for the pair, not exactly one. -/
theorem claim8_counterexample :
    (add_item_to_project [fixProject] [fixItemA] [] "A" "p1" "missing" 0).2
        = 204 ∧
    (add_item_to_project [fixProject] [fixItemA]
        (add_item_to_project [fixProject] [fixItemA] [] "A" "p1" "missing" 0).1
        "A" "p1" "missing" 1).2 = 204 ∧
    ((add_item_to_project [fixProject] [fixItemA]
        (add_item_to_project [fixProject] [fixItemA] [] "A" "p1" "missing" 0).1
        "A" "p1" "missing" 1).1.filter
      (fun l => l.project_id == "p1" && l.item_id == "missing")).length = 0 := by
  decide

/-- C8 (amended): for every owned project and every item id **that exists in
the items table**, adding the same `(project_id, item_id)` pair twice leaves
exactly one join row for the pair (given the join table's primary-key
invariant) and both calls succeed; removing a pair that is not linked
succeeds and leaves the join table unchanged. -/
theorem claim8_link_idempotent (projects : List Project) (itemsDb : List Item)
    (links : List ProjectItem) (owner pid iid : String) (t1 t2 : Timestamp)
    (hproj : projectOwned projects owner pid = true)
    (hitem : itemExists itemsDb iid = true)
    (hpk : (links.filter
      (fun l => l.project_id == pid && l.item_id == iid)).length ≤ 1)
    (links2 : List ProjectItem) (pid2 iid2 : String)
    (hproj2 : projectOwned projects owner pid2 = true)
    (hnl : linkPresent links2 pid2 iid2 = false) :
    (add_item_to_project projects itemsDb links owner pid iid t1).2 = 204 ∧
    (add_item_to_project projects itemsDb
      (add_item_to_project projects itemsDb links owner pid iid t1).1
      owner pid iid t2).2 = 204 ∧
    ((add_item_to_project projects itemsDb
      (add_item_to_project projects itemsDb links owner pid iid t1).1
      owner pid iid t2).1.filter
        (fun l => l.project_id == pid && l.item_id == iid)).length = 1 ∧
    remove_item_from_project projects links2 owner pid2 iid2 = (links2, 204)
    := by
  have hrem : remove_item_from_project projects links2 owner pid2 iid2 =
      (links2, 204) := by
    have hall : ∀ l ∈ links2, (l.project_id == pid2 && l.item_id == iid2) =
        false := by
      intro l hl
      have := List.any_eq_false.mp hnl l hl
      simpa using this
    have hfix : links2.filter
        (fun l => !(l.project_id == pid2 && l.item_id == iid2)) = links2 := by
      rw [List.filter_eq_self]
      intro l hl
      simp [hall l hl]
    simp [remove_item_from_project, hproj2, hfix]
    intro l hl
    by_contra hcon
    push_neg at hcon
    have := hall l hl
    simp [hcon.1, hcon.2] at this
  by_cases hlp : linkPresent links pid iid = true
  · have hfirst : add_item_to_project projects itemsDb links owner pid iid t1
        = (links, 204) := by
      simp [add_item_to_project, hproj, hlp]
    have hsecond : add_item_to_project projects itemsDb links owner pid iid t2
        = (links, 204) := by
      simp [add_item_to_project, hproj, hlp]
    obtain ⟨l, hl, hpl⟩ := List.any_eq_true.mp hlp
    have hmem : l ∈ links.filter
        (fun l => l.project_id == pid && l.item_id == iid) :=
      List.mem_filter.mpr ⟨hl, hpl⟩
    have hpos : 1 ≤ (links.filter
        (fun l => l.project_id == pid && l.item_id == iid)).length :=
      List.length_pos.mpr (List.ne_nil_of_mem hmem)
    refine ⟨by rw [hfirst], by rw [hfirst, hsecond], ?_, hrem⟩
    rw [hfirst, hsecond]
    exact Nat.le_antisymm hpk hpos
  · have hlp2 : linkPresent links pid iid = false := by
      simpa using hlp
    have hfirst : add_item_to_project projects itemsDb links owner pid iid t1
        = (links ++ [{ project_id := pid, item_id := iid, created_at := t1 }],
          204) := by
      simp [add_item_to_project, hproj, hlp2, hitem]
    have hnow : linkPresent
        (links ++ [{ project_id := pid, item_id := iid, created_at := t1 }])
        pid iid = true := by
      simp [linkPresent]
    have hsecond : add_item_to_project projects itemsDb
        (links ++ [{ project_id := pid, item_id := iid, created_at := t1 }])
        owner pid iid t2
        = (links ++ [{ project_id := pid, item_id := iid, created_at := t1 }],
          204) := by
      simp [add_item_to_project, hproj, hnow]
    have hnil : links.filter
        (fun l => l.project_id == pid && l.item_id == iid) = [] := by
      rw [List.filter_eq_nil_iff]
      intro l hl
      have := List.any_eq_false.mp hlp2 l hl
      simpa using this
    refine ⟨by rw [hfirst], by rw [hfirst, hsecond], ?_, hrem⟩
    rw [hfirst, hsecond]
    simp [List.filter_append, hnil]

/-- Witness for C8 at a concrete state: project `p1` owned by `A`, item `a1`
present, initially empty join table; removal probe on the unlinked pair
`(p1, zz)`. -/
theorem claim8_witness :
    projectOwned [fixProject] "A" "p1" = true ∧
    itemExists [fixItemA] "a1" = true ∧
    ((add_item_to_project [fixProject] [fixItemA] [] "A" "p1" "a1" 0).2 = 204 ∧
     (add_item_to_project [fixProject] [fixItemA]
        (add_item_to_project [fixProject] [fixItemA] [] "A" "p1" "a1" 0).1
        "A" "p1" "a1" 1).2 = 204 ∧
     ((add_item_to_project [fixProject] [fixItemA]
        (add_item_to_project [fixProject] [fixItemA] [] "A" "p1" "a1" 0).1
        "A" "p1" "a1" 1).1.filter
          (fun l => l.project_id == "p1" && l.item_id == "a1")).length = 1 ∧
     remove_item_from_project [fixProject] [] "A" "p1" "zz" = ([], 204)) :=
  ⟨by decide, by decide,
    claim8_link_idempotent [fixProject] [fixItemA] [] "A" "p1" "a1" 0 1
      (by decide) (by decide) (by decide) [] "p1" "zz" (by decide) (by decide)⟩

/-! ### C3: semantic fallback equivalence on embedding failure -/

/-- C3: for a search with `semantic=true` and a non-empty query, if computing
the query embedding fails or returns empty (`generate_embedding` yields `[]`
in both cases), the response equals the response of the identical request
with `semantic=false`: same items, same cursor, and mode reported as
"text"; no error is surfaced.  `semRaise` additionally covers
`storage.semantic_search` itself raising. -/
theorem claim3_semantic_fallback (db : List Item) (sim : Item → Rat)
    (semRaise : Bool) (owner : String) (q : Query) (limit : Nat)
    (cursor : Option Timestamp) (hq : strTruthy q.query = true) :
    list_items db sim [] semRaise owner q limit cursor true =
      list_items db sim [] semRaise owner q limit cursor false ∧
    (list_items db sim [] semRaise owner q limit cursor true).search_type =
      "text" := by
  constructor
  · cases semRaise <;> simp [list_items, hq, semantic_search]
  · cases semRaise <;> simp [list_items, hq, semantic_search, textListItems]

/-- Witness for C3: a concrete one-row table and the query "lamp". -/
theorem claim3_witness :
    strTruthy ({ query := some "lamp" } : Query).query = true ∧
    (list_items [fixSemColoured] (fun _ => 0) [] false "u"
        { query := some "lamp" } 20 none true =
      list_items [fixSemColoured] (fun _ => 0) [] false "u"
        { query := some "lamp" } 20 none false ∧
     (list_items [fixSemColoured] (fun _ => 0) [] false "u"
        { query := some "lamp" } 20 none true).search_type = "text") :=
  ⟨by decide,
    claim3_semantic_fallback [fixSemColoured] (fun _ => 0) false "u"
      { query := some "lamp" } 20 none (by decide)⟩

/-! ### C10: empty semantic candidate set falls through to text mode -/

/-- C10: with `semantic=true`, a non-empty query and a successfully computed
(non-empty) query embedding, if vector retrieval yields zero candidates above
the similarity threshold the endpoint never returns an empty "semantic" page:
it runs the full text-mode query and reports mode "text". -/
theorem claim10_empty_candidates_fallback (db : List Item)
    (sim : Item → Rat) (queryEmb : List Rat) (owner : String) (q : Query)
    (limit : Nat) (cursor : Option Timestamp)
    (hq : strTruthy q.query = true) (hemb : queryEmb.isEmpty = false)
    (hcand : search_by_embedding db sim queryEmb owner (clampLimit limit)
      simThreshold = []) :
    list_items db sim queryEmb false owner q limit cursor true =
      textListItems db owner q limit cursor ∧
    (list_items db sim queryEmb false owner q limit cursor true).search_type
      = "text" := by
  have h1 : semantic_search db sim queryEmb owner (clampLimit limit) = [] := by
    simp [semantic_search, hemb, hcand]
  constructor
  · simp [list_items, hq, h1]
  · simp [list_items, hq, h1, textListItems]

/-- Witness for C10: embedding `[1]` succeeds, but the only stored row has no
embedding column, so vector retrieval returns no candidates. -/
theorem claim10_witness :
    strTruthy ({ query := some "lamp" } : Query).query = true ∧
    ([1] : List Rat).isEmpty = false ∧
    search_by_embedding [fixItemA] (fun _ => 0) [1] "A" (clampLimit 20)
      simThreshold = [] ∧
    (list_items [fixItemA] (fun _ => 0) [1] false "A"
        { query := some "lamp" } 20 none true =
      textListItems [fixItemA] "A" { query := some "lamp" } 20 none ∧
     (list_items [fixItemA] (fun _ => 0) [1] false "A"
        { query := some "lamp" } 20 none true).search_type = "text") :=
  ⟨by decide, by decide, by decide,
    claim10_empty_candidates_fallback [fixItemA] (fun _ => 0) [1] "A"
      { query := some "lamp" } 20 none (by decide) (by decide) (by decide)⟩

/-! ### Shared helper lemmas -/

/-- SQL equality of nullable strings implies propositional equality. -/
theorem sqlEq_eq {a b : Option String} (h : sqlEq a b = true) : a = b := by
  cases a with
  | none => cases b <;> simp [sqlEq] at h
  | some x =>
    cases b with
    | none => simp [sqlEq] at h
    | some y => simp [sqlEq] at h; rw [h]

/-- Membership in the descending-`created_at` sort is membership in the
underlying list. -/
theorem mem_sortByCreatedDesc {it : Item} {l : List Item} :
    it ∈ sortByCreatedDesc l ↔ it ∈ l := by
  simp [sortByCreatedDesc, List.mem_insertionSort]

/-- Every row returned by `search_by_embedding` is a stored row of the
requested owner with a non-NULL embedding above the threshold. -/
theorem search_by_embedding_mem {db : List Item} {sim : Item → Rat}
    {queryEmb : List Rat} {owner : String} {limit : Nat} {threshold : Rat}
    {it : Item} (h : it ∈ search_by_embedding db sim queryEmb owner limit
      threshold) :
    it ∈ db ∧ it.owner_id = owner ∧ it.embedding.isSome = true ∧
      sim it > threshold := by
  rw [search_by_embedding] at h
  by_cases hq : queryEmb.isEmpty
  · simp [hq] at h
  · simp only [hq, if_false, Bool.false_eq_true] at h
    have h2 := List.take_subset _ _ h
    rw [List.mem_insertionSort] at h2
    have h3 := List.mem_filter.mp h2
    have h4 := h3.2
    simp only [Bool.and_eq_true, beq_iff_eq, decide_eq_true_eq] at h4
    exact ⟨h3.1, h4.1.1, h4.1.2, h4.2⟩

/-- Every row of a text-mode page satisfies the WHERE clause and is stored. -/
theorem textListItems_mem {db : List Item} {owner : String} {q : Query}
    {limit : Nat} {cursor : Option Timestamp} {it : Item}
    (h : it ∈ (textListItems db owner q limit cursor).items) :
    it ∈ db ∧ textMatches owner q it = true ∧ cursorOk cursor it = true := by
  simp only [textListItems] at h
  have h2 := List.take_subset _ _ h
  rw [mem_sortByCreatedDesc] at h2
  have h3 := List.mem_filter.mp h2
  have h4 := List.mem_filter.mp h3.1
  exact ⟨h4.1, h4.2, h3.2⟩

/-- The text-mode WHERE clause pins the owner. -/
theorem textMatches_owner {owner : String} {q : Query} {it : Item}
    (h : textMatches owner q it = true) : it.owner_id = owner := by
  simp only [textMatches, Bool.and_eq_true, beq_iff_eq] at h
  exact h.1.1.1.1.1

/-- Every item in any `list_items` response belongs to the caller. -/
theorem list_items_owner {db : List Item} {sim : Item → Rat}
    {queryEmb : List Rat} {semRaise : Bool} {owner : String} {q : Query}
    {limit : Nat} {cursor : Option Timestamp} {semantic : Bool} {it : Item}
    (h : it ∈ (list_items db sim queryEmb semRaise owner q limit cursor
      semantic).items) :
    it.owner_id = owner ∧ it ∈ db := by
  rw [list_items] at h
  by_cases hb : (semantic && strTruthy q.query) = true
  · simp only [hb, if_true] at h
    by_cases hse : (if semRaise then []
        else semantic_search db sim queryEmb owner (clampLimit limit)).isEmpty
        = true
    · simp only [hse, if_true] at h
      have := textListItems_mem h
      exact ⟨textMatches_owner this.2.1, this.1⟩
    · simp only [hse, if_false, Bool.false_eq_true] at h
      have h2 := List.take_subset _ _ h
      have h3 := (List.mem_filter.mp h2).1
      cases hr : semRaise with
      | true => rw [hr] at h3; simp at h3
      | false =>
        rw [hr] at h3
        simp only [if_false, Bool.false_eq_true] at h3
        rw [semantic_search] at h3
        by_cases hq : queryEmb.isEmpty
        · simp [hq] at h3
        · simp only [hq, if_false, Bool.false_eq_true] at h3
          have := search_by_embedding_mem h3
          exact ⟨this.2.1, this.1⟩
  · simp only [hb, if_false, Bool.false_eq_true] at h
    have := textListItems_mem h
    exact ⟨textMatches_owner this.2.1, this.1⟩

/-! ### C4: semantic-mode page shape -/

/-- C4 counterexample: the claim says every item returned in semantic mode
has a `colour_hex` containing the requested `hex` substring, but the
post-filter skips rows whose `colour_hex` is NULL (Python truthiness guard
`item.get("colour_hex")`), so a NULL-colour row is returned in a semantic
page even though `hex=ff` was requested. -/
theorem claim4_counterexample :
    (list_items [fixSemNoHex] (fun _ => 1) [1] false "u"
        { query := some "lamp", hex := some "ff" } 20 none true).search_type
      = "semantic" ∧
    (list_items [fixSemNoHex] (fun _ => 1) [1] false "u"
        { query := some "lamp", hex := some "ff" } 20 none true).items.all
      (fun it => match it.colour_hex with
        | some s => strContainsCI s "ff"
        | none => false) = false := by
  decide

/-- C4 (amended): whenever a search response is in semantic mode, its
`next_cursor` is null and at most `limit` items are returned; each returned
item satisfies the post-retrieval filters in their implemented form: when
`hex` is provided, an item with a non-null, non-empty `colour_hex` contains
it case-insensitively (items with missing/empty colour pass unfiltered);
when `price_max` is provided, an item with a non-null, non-zero price has
price ≤ price_max (missing/zero prices pass unfiltered); provided `category`
(resp. `vendor`) must match exactly. -/
theorem claim4_semantic_page_shape (db : List Item) (sim : Item → Rat)
    (queryEmb : List Rat) (semRaise : Bool) (owner : String) (q : Query)
    (limit : Nat) (cursor : Option Timestamp) (semantic : Bool)
    (resp : ItemsResponse)
    (hresp : list_items db sim queryEmb semRaise owner q limit cursor semantic
      = resp)
    (h : resp.search_type = "semantic") :
    resp.nextCursor = none ∧ resp.items.length ≤ clampLimit limit ∧
    ∀ it ∈ resp.items,
      (∀ hx, q.hex = some hx → hx.isEmpty = false →
        ∀ s, it.colour_hex = some s → s.isEmpty = false →
          strContainsCI s hx = true) ∧
      (∀ pm, q.price_max = some pm → ∀ p, it.price = some p → p ≠ 0 →
        p ≤ pm) ∧
      (∀ c, q.category = some c → c.isEmpty = false → it.category = some c) ∧
      (∀ v, q.vendor = some v → v.isEmpty = false → it.vendor = some v) := by
  subst hresp
  by_cases hb : (semantic && strTruthy q.query) = true
  · by_cases hse : (if semRaise then []
        else semantic_search db sim queryEmb owner (clampLimit limit)).isEmpty
        = true
    · rw [list_items] at h ⊢
      simp only [hb, if_true, hse] at h
      simp [textListItems] at h
    · have hform : list_items db sim queryEmb semRaise owner q limit cursor
          semantic =
          { items := ((if semRaise then []
              else semantic_search db sim queryEmb owner
                (clampLimit limit)).filter (semanticKeep q)).take
              (clampLimit limit)
            nextCursor := none
            search_type := "semantic" } := by
        rw [list_items]
        simp only [hb, if_true, hse, if_false, Bool.false_eq_true]
      rw [hform]
      refine ⟨rfl, by simp [List.length_take_le], ?_⟩
      intro it hit
      have hkeep : semanticKeep q it = true :=
        (List.mem_filter.mp (List.take_subset _ _ hit)).2
      simp only [semanticKeep, Bool.and_eq_true, Bool.not_eq_true'] at hkeep
      obtain ⟨⟨⟨khex, kprice⟩, kcat⟩, kven⟩ := hkeep
      refine ⟨?_, ?_, ?_, ?_⟩
      · intro hx hqhex hxne s hcol hsne
        rw [hqhex, hcol] at khex
        simpa [strTruthy, hxne, hsne] using khex
      · intro pm hqpm p hp hpne
        rw [hqpm, hp] at kprice
        have : ¬ p > pm := by
          simpa [priceTruthy, hpne] using kprice
        omega
      · intro c hqc hcne
        rw [hqc] at kcat
        have : (it.category == some c) = true := by
          simpa [strTruthy, hcne] using kcat
        exact beq_iff_eq.mp this
      · intro v hqv hvne
        rw [hqv] at kven
        have : (it.vendor == some v) = true := by
          simpa [strTruthy, hvne] using kven
        exact beq_iff_eq.mp this
  · rw [list_items] at h
    simp only [hb, if_false, Bool.false_eq_true] at h
    simp [textListItems] at h

/-- Witness for C4: a one-row semantic page whose item does carry the
requested colour substring. -/
theorem claim4_witness :
    (list_items [fixSemColoured] (fun _ => 1) [1] false "u" fixQuerySofa 20
        none true = fixRespSofa) ∧
    fixRespSofa.search_type = "semantic" ∧
    (fixRespSofa.nextCursor = none ∧
     fixRespSofa.items.length ≤ clampLimit 20 ∧
     ∀ it ∈ fixRespSofa.items,
      (∀ hx, fixQuerySofa.hex = some hx → hx.isEmpty = false →
        ∀ s, it.colour_hex = some s → s.isEmpty = false →
          strContainsCI s hx = true) ∧
      (∀ pm, fixQuerySofa.price_max = some pm → ∀ p, it.price = some p →
        p ≠ 0 → p ≤ pm) ∧
      (∀ c, fixQuerySofa.category = some c → c.isEmpty = false →
        it.category = some c) ∧
      (∀ v, fixQuerySofa.vendor = some v → v.isEmpty = false →
        it.vendor = some v)) :=
  ⟨by decide, by decide,
    claim4_semantic_page_shape [fixSemColoured] (fun _ => 1) [1] false "u"
      fixQuerySofa 20 none true fixRespSofa (by decide) (by decide)⟩

/-! ### C5: find-similar structured fallback -/

/-- C5 counterexample: when vector retrieval raises, the fallback query
(items.py lines 631-642) has no `ORDER BY`, so the returned rows keep
storage order.  Here the source item has an embedding, vector retrieval
raises, and the two matching rows come back oldest-first (`created_at`
values `[1, 2]`), which is not the descending recency order the claim
asserts. -/
theorem claim5_counterexample :
    (((find_similar_items fixDbSimilar (fun _ => 1) true "A" "s"
        10).toOption.getD { items := [] }).items.map
      (fun it => it.created_at)) = [1, 2] ∧
    ¬ List.Pairwise createdDesc
      (((find_similar_items fixDbSimilar (fun _ => 1) true "A" "s"
        10).toOption.getD { items := [] }).items) := by
  have hitems : (((find_similar_items fixDbSimilar (fun _ => 1) true "A" "s"
      10).toOption.getD { items := [] }).items) = [fixOld, fixNew] := by
    decide
  rw [hitems]
  exact ⟨by decide, by decide⟩

/-- C5 (amended): for every find-similar request on an existing owned item:
if the item has no stored embedding (or an empty one), the returned items
are same-owner rows other than the item itself, restricted to the source's
category only when the source category is non-empty, ordered by `created_at`
descending and capped at `limit`; if instead vector retrieval raises, the
returned items are same-owner rows other than the item itself whose category
equals the source's under SQLAlchemy equality semantics (a NULL source
category matches exactly the NULL-category rows), capped at `limit` but kept
in storage order rather than re-ordered by recency.  In both cases the error
is not surfaced: the request returns a successful response with a null
cursor. -/
theorem claim5_find_similar_fallback (db : List Item) (sim : Item → Rat)
    (vecRaises : Bool) (owner iid : String) (limit : Nat) (src : Item)
    (hsrc : db.find? (fun it => it.id == iid && it.owner_id == owner)
      = some src) :
    ∃ resp, find_similar_items db sim vecRaises owner iid limit =
        Except.ok resp ∧
      resp.nextCursor = none ∧
      (embTruthy src.image_embedding = false →
        (∀ it ∈ resp.items, it.owner_id = owner ∧ it.id ≠ iid ∧
          (strTruthy src.category = true → it.category = src.category)) ∧
        resp.items.Pairwise createdDesc ∧
        resp.items.length ≤ limit) ∧
      (embTruthy src.image_embedding = true → vecRaises = true →
        (∀ it ∈ resp.items, it.owner_id = owner ∧ it.id ≠ iid ∧
          saEq it.category src.category = true) ∧
        resp.items.length ≤ limit ∧
        resp.items.Sublist db) := by
  rw [find_similar_items, hsrc]
  refine ⟨_, rfl, rfl, ?_, ?_⟩
  · intro hemb
    simp only [hemb, Bool.not_false, if_true]
    refine ⟨?_, ?_, List.length_take_le _ _⟩
    · intro it hit
      have h2 := List.take_subset _ _ hit
      rw [mem_sortByCreatedDesc] at h2
      have h3 := (List.mem_filter.mp h2).2
      simp only [Bool.and_eq_true, beq_iff_eq, Bool.not_eq_true',
        Bool.or_eq_true, Bool.not_eq_true] at h3
      refine ⟨h3.1.1, by simpa using h3.1.2, ?_⟩
      intro htr
      rcases h3.2 with hfalse | hsql
      · rw [htr] at hfalse; cases hfalse
      · exact sqlEq_eq hsql
    · exact List.Pairwise.sublist (List.take_sublist _ _)
        (List.sorted_insertionSort createdDesc _)
  · intro hemb hvec
    simp only [hemb, Bool.not_true, if_false, hvec, if_true,
      Bool.false_eq_true]
    refine ⟨?_, List.length_take_le _ _, ?_⟩
    · intro it hit
      have h2 := List.take_subset _ _ hit
      have h3 := (List.mem_filter.mp h2).2
      simp only [Bool.and_eq_true, beq_iff_eq, Bool.not_eq_true'] at h3
      exact ⟨h3.1.1, by simpa using h3.1.2, h3.2⟩
    · exact (List.take_sublist _ _).trans (List.filter_sublist _)

/-- Witness for C5: the concrete three-row table of `fixDbSimilar`, source
item `s`, vector retrieval raising. -/
theorem claim5_witness :
    (fixDbSimilar.find? (fun it => it.id == "s" && it.owner_id == "A")
      = some fixSrc) ∧
    (∃ resp, find_similar_items fixDbSimilar (fun _ => 1) true "A" "s" 10 =
        Except.ok resp ∧
      resp.nextCursor = none ∧
      (embTruthy fixSrc.image_embedding = false →
        (∀ it ∈ resp.items, it.owner_id = "A" ∧ it.id ≠ "s" ∧
          (strTruthy fixSrc.category = true → it.category = fixSrc.category)) ∧
        resp.items.Pairwise createdDesc ∧
        resp.items.length ≤ 10) ∧
      (embTruthy fixSrc.image_embedding = true → true = true →
        (∀ it ∈ resp.items, it.owner_id = "A" ∧ it.id ≠ "s" ∧
          saEq it.category fixSrc.category = true) ∧
        resp.items.length ≤ 10 ∧
        resp.items.Sublist fixDbSimilar)) :=
  ⟨by decide,
    claim5_find_similar_fallback fixDbSimilar (fun _ => 1) true "A" "s" 10
      fixSrc (by decide)⟩

/-! ### C1: ownership isolation -/

/-- C1 counterexample: the claim's conjunct "every repository query carries
an owner_id predicate equal to the caller's user id" is false —
`update_item`'s UPDATE statement and refetch (items.py lines 496-505) filter
on `id` alone.  The missing predicate is observable exactly at a table state
where a foreign row shares the id (a primary-key violation, which only the
schema, not the query, rules out): owner `A`'s update of id `x` also
rewrites `B`'s row sharing that id, so the original `B`-owned row is gone
and both rows carry the patched title, falsifying "never modifies ... every
repository query carries an owner_id predicate". -/
theorem claim1_counterexample :
    ("A" ≠ "B") ∧ fixDupB.owner_id = "B" ∧
    fixDupB ∈ [fixDupA, fixDupB] ∧
    fixDupB ∉ (update_item [fixDupA, fixDupB] "A" "x"
      { title := some "patched" } 9).1 ∧
    ((update_item [fixDupA, fixDupB] "A" "x"
      { title := some "patched" } 9).1.map (fun it => it.title))
      = [some "patched", some "patched"] := by
  decide

/-- C1 (amended): for distinct owners `A ≠ B` and any item belonging to `B`:
list/search (text or semantic mode) under `A`'s identity never returns it,
get never returns it, raw vector search never returns it, and — given the
items table's primary-key invariant (`id` column unique) — update, delete
and batch-delete under `A`'s identity never modify or remove it (the row
survives unchanged).  Every repository query carries the caller's `owner_id`
predicate except `update_item`'s UPDATE statement and refetch, which filter
on `id` alone and rely on the preceding owner-scoped existence check; that
is why the update conjunct needs the primary-key hypothesis. -/
theorem claim1_ownership_isolation (db : List Item) (sim : Item → Rat)
    (queryEmb : List Rat) (semRaise : Bool) (A B : String) (itB : Item)
    (q : Query) (limit : Nat) (cursor : Option Timestamp) (semantic : Bool)
    (iid : String) (p : ItemUpdate) (now : Timestamp) (ids : List String)
    (threshold : Rat) (hAB : A ≠ B) (hB : itB.owner_id = B)
    (hPK : (db.map (fun it => it.id)).Nodup) :
    itB ∉ (list_items db sim queryEmb semRaise A q limit cursor
      semantic).items ∧
    get_item db A iid ≠ some itB ∧
    itB ∉ search_by_embedding db sim queryEmb A limit threshold ∧
    (itB ∈ db → itB ∈ (update_item db A iid p now).1) ∧
    (itB ∈ db → itB ∈ (delete_item db A iid).1) ∧
    (itB ∈ db → itB ∈ batch_delete_items db A ids) := by
  have hownA : (itB.owner_id == A) = false := by
    rw [hB]
    exact beq_eq_false_iff_ne.mpr (Ne.symm hAB)
  refine ⟨?_, ?_, ?_, ?_, ?_, ?_⟩
  · intro hmem
    exact hAB ((list_items_owner hmem).1.symm.trans hB)
  · intro heq
    have hpred := List.find?_some heq
    simp only [Bool.and_eq_true, beq_iff_eq] at hpred
    exact hAB (hpred.2.symm.trans hB)
  · intro hmem
    exact hAB ((search_by_embedding_mem hmem).2.1.symm.trans hB)
  · intro hmem
    rw [update_item]
    by_cases h1 : hasUpdates p = true
    · by_cases h2 : db.all (fun it => !(it.id == iid && it.owner_id == A))
          = true
      · rw [if_neg (by simp [h1]), if_pos h2]
        exact hmem
      · have h2f : db.all (fun it => !(it.id == iid && it.owner_id == A))
            = false := by simpa using h2
        obtain ⟨r, hr, hrp⟩ := List.all_eq_false.mp h2f
        have hrp2 : (r.id == iid && r.owner_id == A) = true := by
          simpa using hrp
        simp only [Bool.and_eq_true, beq_iff_eq] at hrp2
        have hidne : itB.id ≠ iid := by
          intro hid
          have : itB = r := List.inj_on_of_nodup_map hPK hmem hr
            (by rw [hid, hrp2.1])
          rw [this, hrp2.2] at hB
          exact hAB hB
        have hmem2 : itB ∈ db.map
            (fun it => if it.id == iid then applyPatch p now it else it) :=
          List.mem_map.mpr ⟨itB, hmem, by simp [hidne]⟩
        rw [if_neg (by simp [h1]),
          if_neg (by rw [h2f]; exact Bool.false_ne_true)]
        simp only []
        cases hf : (db.map
            (fun it => if it.id == iid then applyPatch p now it
              else it)).find? (fun it => it.id == iid)
        · exact hmem2
        · exact hmem2
    · have h1f : hasUpdates p = false := by simpa using h1
      rw [if_pos (by simp [h1f])]
      exact hmem
  · intro hmem
    rw [delete_item]
    refine List.mem_filter.mpr ⟨hmem, ?_⟩
    simp [hownA]
  · intro hmem
    rw [batch_delete_items]
    by_cases hids : ids.isEmpty = true
    · simp [hids, hmem]
    · have : ids.isEmpty = false := by simpa using hids
      simp only [this, Bool.false_eq_true, if_false]
      refine List.mem_filter.mpr ⟨hmem, ?_⟩
      simp [hownA]

/-- Witness for C1: owners `A ≠ B`, `fixItemB` owned by `B`, a two-row table
with distinct primary keys; probes target `fixItemB`'s id. -/
theorem claim1_witness :
    ("A" ≠ "B") ∧ (fixItemB.owner_id = "B") ∧
    (([fixItemA, fixItemB].map (fun it => it.id)).Nodup) ∧
    (fixItemB ∉ (list_items [fixItemA, fixItemB] (fun _ => 1) [1] false "A"
        { query := some "lamp" } 20 none false).items ∧
     get_item [fixItemA, fixItemB] "A" "b1" ≠ some fixItemB ∧
     fixItemB ∉ search_by_embedding [fixItemA, fixItemB] (fun _ => 1) [1]
       "A" 20 simThreshold ∧
     (fixItemB ∈ [fixItemA, fixItemB] → fixItemB ∈
       (update_item [fixItemA, fixItemB] "A" "b1"
         { title := some "hacked" } 9).1) ∧
     (fixItemB ∈ [fixItemA, fixItemB] → fixItemB ∈
       (delete_item [fixItemA, fixItemB] "A" "b1").1) ∧
     (fixItemB ∈ [fixItemA, fixItemB] → fixItemB ∈
       batch_delete_items [fixItemA, fixItemB] "A" ["b1"])) :=
  ⟨by decide, by decide, by decide,
    claim1_ownership_isolation [fixItemA, fixItemB] (fun _ => 1) [1] false
      "A" "B" fixItemB { query := some "lamp" } 20 none false "b1"
      { title := some "hacked" } 9 ["b1"] simThreshold (by decide) (by decide)
      (by decide)⟩

/-! ### C2: helper lemmas for cursor pagination -/

/-- A list sorted weakly by recency whose timestamps are pairwise distinct is
sorted strictly. -/
theorem pairwise_createdLt {l : List Item} (hs : l.Pairwise createdDesc)
    (hd : l.Pairwise (fun a b => a.created_at ≠ b.created_at)) :
    l.Pairwise createdLt :=
  (hs.and hd).imp (fun h => Nat.lt_of_le_of_ne h.1 (fun he => h.2 he.symm))

/-- The timestamp-distinctness of a list transfers to its recency sort. -/
theorem sortByCreatedDesc_ne {l : List Item}
    (hd : l.Pairwise (fun a b => a.created_at ≠ b.created_at)) :
    (sortByCreatedDesc l).Pairwise
      (fun a b => a.created_at ≠ b.created_at) :=
  ((List.perm_insertionSort createdDesc l).pairwise_iff
    (fun h => Ne.symm h)).mpr hd

/-- With pairwise distinct timestamps, filtering commutes with the recency
sort: sorting the filtered list equals filtering the sorted list. -/
theorem sort_filter_comm (l : List Item) (g : Item → Bool)
    (hd : l.Pairwise (fun a b => a.created_at ≠ b.created_at)) :
    sortByCreatedDesc (l.filter g) = (sortByCreatedDesc l).filter g := by
  have s1 : (sortByCreatedDesc (l.filter g)).Pairwise createdLt :=
    pairwise_createdLt (List.sorted_insertionSort createdDesc _)
      (sortByCreatedDesc_ne (hd.filter g))
  have s2 : ((sortByCreatedDesc l).filter g).Pairwise createdLt :=
    pairwise_createdLt
      (List.Pairwise.filter g (List.sorted_insertionSort createdDesc l))
      ((sortByCreatedDesc_ne hd).filter g)
  have hperm : List.Perm (sortByCreatedDesc (l.filter g))
      ((sortByCreatedDesc l).filter g) :=
    (List.perm_insertionSort createdDesc (l.filter g)).trans
      ((List.perm_insertionSort createdDesc l).filter g).symm
  exact List.eq_of_perm_of_sorted hperm s1 s2

/-- On a strictly descending list, keeping the rows strictly older than the
last row of the first `L`-page is exactly dropping that page. -/
theorem filter_lt_last_take :
    ∀ (R : List Item) (L : Nat) (x : Item), 1 ≤ L →
      R.Pairwise createdLt → (R.take L).getLast? = some x →
      R.filter (fun it => decide (it.created_at < x.created_at)) = R.drop L
    := by
  intro R
  induction R with
  | nil =>
    intro L x hL hp hlast
    simp at hlast
  | cons a R ih =>
    intro L x hL hp hlast
    obtain ⟨L2, rfl⟩ : ∃ L2, L = L2 + 1 := ⟨L - 1, by omega⟩
    rw [List.take_succ_cons] at hlast
    rw [List.drop_succ_cons]
    have hpa := List.pairwise_cons.mp hp
    by_cases hnil : R.take L2 = []
    · rw [hnil] at hlast
      have hxa : a = x := by simpa using hlast
      have hfa : (decide (a.created_at < x.created_at)) = false := by
        rw [hxa]
        simp
      rcases List.take_eq_nil_iff.mp hnil with h0 | h0
      · subst h0
        simp only [List.drop_zero, List.filter_cons, hfa,
          Bool.false_eq_true, if_false]
        rw [List.filter_eq_self]
        intro b hb
        have hlt := hpa.1 b hb
        rw [← hxa]
        simpa [createdLt] using hlt
      · subst h0
        simp [List.filter_cons, hfa]
    · obtain ⟨b, t, hRt⟩ : ∃ b t, R.take L2 = b :: t := by
        cases hRt2 : R.take L2 with
        | nil => exact absurd hRt2 hnil
        | cons b t => exact ⟨b, t, rfl⟩
      have hlast2 : (R.take L2).getLast? = some x := by
        rw [hRt] at hlast ⊢
        rw [List.getLast?_cons_cons] at hlast
        exact hlast
      have hL2 : 1 ≤ L2 := by
        rcases Nat.eq_zero_or_pos L2 with h0 | h0
        · rw [h0] at hnil; simp at hnil
        · exact h0
      have hxR : x ∈ R :=
        List.take_subset _ _ (List.mem_of_getLast?_eq_some hlast2)
      have hax : x.created_at < a.created_at := hpa.1 x hxR
      have hfa : (decide (a.created_at < x.created_at)) = false := by
        have hno : ¬ (a.created_at < x.created_at) :=
          fun hlt => absurd hax (Nat.lt_asymm hlt)
        exact decide_eq_false hno
      simp only [List.filter_cons, hfa, Bool.false_eq_true, if_false]
      exact ih L2 x hL2 hpa.2 hlast2

/-- Moving the cursor to a row `x` of the current remainder refines the
current cursor filter by "strictly older than `x`". -/
theorem cursor_filter_step (S : List Item) (c : Option Timestamp) (x : Item)
    (hx : cursorOk c x = true) :
    S.filter (cursorOk (some x.created_at)) =
      (S.filter (cursorOk c)).filter
        (fun it => decide (it.created_at < x.created_at)) := by
  rw [List.filter_filter]
  apply List.filter_congr
  intro a _
  cases c with
  | none => simp [cursorOk]
  | some t =>
    simp only [cursorOk, decide_eq_true_eq] at hx
    by_cases h : a.created_at < x.created_at
    · have h2 : a.created_at < t := Nat.lt_trans h hx
      simp [cursorOk, h, h2]
    · simp [cursorOk, h]

/-- Chain specification: if each call of `page` returns the first `limit`
rows of a fixed strictly-descending list `S` filtered by the cursor, with the
last row's timestamp as `nextCursor`, then feeding cursors back visits the
remainder exactly once, every page is capped and sorted, all pages before
the last are non-empty, and the chain ends at the first empty page, which
carries a null cursor. -/
theorem runChain_spec (page : Option Timestamp → ItemsResponse)
    (S : List Item) (limit : Nat) (hlim1 : 1 ≤ limit)
    (hS : S.Pairwise createdLt)
    (hpage : ∀ c, page c =
      { items := (S.filter (cursorOk c)).take limit
        nextCursor := ((S.filter (cursorOk c)).take limit).getLast?.map
          (fun it => it.created_at)
        search_type := "text" }) :
    ∀ (fuel : Nat) (c : Option Timestamp),
      (S.filter (cursorOk c)).length < fuel →
      joinPages (runChain page c fuel) = S.filter (cursorOk c) ∧
      (runChain page c fuel).getLast? =
        some { items := [], nextCursor := none, search_type := "text" } ∧
      (∀ r ∈ (runChain page c fuel).dropLast, r.items ≠ []) ∧
      (∀ r ∈ runChain page c fuel,
        r.items.length ≤ limit ∧ r.items.Pairwise createdDesc) := by
  intro fuel
  induction fuel with
  | zero =>
    intro c h
    exact absurd h (Nat.not_lt_zero _)
  | succ fuel ih =>
    intro c hfc
    by_cases hRe : S.filter (cursorOk c) = []
    · have hresp : page c =
          { items := [], nextCursor := none, search_type := "text" } := by
        rw [hpage c, hRe]
        simp
      have hrun : runChain page c (fuel + 1) =
          [{ items := [], nextCursor := none, search_type := "text" }] := by
        simp only [runChain, hresp]
      rw [hrun, hRe]
      refine ⟨rfl, rfl, by simp, ?_⟩
      intro r hr
      simp only [List.mem_singleton] at hr
      subst hr
      exact ⟨Nat.zero_le _, List.Pairwise.nil⟩
    · have htake_ne : (S.filter (cursorOk c)).take limit ≠ [] := by
        rw [Ne, List.take_eq_nil_iff]
        rintro (h0 | h0)
        · omega
        · exact hRe h0
      obtain ⟨x, hx⟩ : ∃ x, ((S.filter (cursorOk c)).take limit).getLast?
          = some x := by
        cases hlw : ((S.filter (cursorOk c)).take limit).getLast? with
        | none => exact absurd (List.getLast?_eq_none_iff.mp hlw) htake_ne
        | some y => exact ⟨y, rfl⟩
      have hRlt : (S.filter (cursorOk c)).Pairwise createdLt :=
        hS.filter _
      have hmemx : x ∈ S.filter (cursorOk c) :=
        List.take_subset _ _ (List.mem_of_getLast?_eq_some hx)
      have hcx : cursorOk c x = true := (List.mem_filter.mp hmemx).2
      have hnext : S.filter (cursorOk (some x.created_at))
          = (S.filter (cursorOk c)).drop limit := by
        rw [cursor_filter_step S c x hcx]
        exact filter_lt_last_take _ limit x hlim1 hRlt hx
      have hlen : (S.filter (cursorOk (some x.created_at))).length < fuel
          := by
        rw [hnext, List.length_drop]
        have h2 : 0 < (S.filter (cursorOk c)).length :=
          List.length_pos.mpr hRe
        omega
      obtain ⟨ih1, ih2, ih3, ih4⟩ := ih (some x.created_at) hlen
      have hresp : page c =
          { items := (S.filter (cursorOk c)).take limit
            nextCursor := some x.created_at
            search_type := "text" } := by
        rw [hpage c, hx]
        rfl
      have hrun : runChain page c (fuel + 1)
          = { items := (S.filter (cursorOk c)).take limit
              nextCursor := some x.created_at
              search_type := "text" } ::
            runChain page (some x.created_at) fuel := by
        simp only [runChain, hresp]
      have hrest_ne : runChain page (some x.created_at) fuel ≠ [] := by
        intro h0
        rw [h0] at ih2
        simp at ih2
      obtain ⟨b, tl, hbt⟩ : ∃ b tl,
          runChain page (some x.created_at) fuel = b :: tl := by
        cases h2 : runChain page (some x.created_at) fuel with
        | nil => exact absurd h2 hrest_ne
        | cons b tl => exact ⟨b, tl, rfl⟩
      rw [hrun]
      refine ⟨?_, ?_, ?_, ?_⟩
      · simp only [joinPages]
        rw [ih1, hnext]
        exact List.take_append_drop _ _
      · rw [hbt, List.getLast?_cons_cons]
        rw [hbt] at ih2
        exact ih2
      · rw [hbt, List.dropLast_cons₂]
        intro r hr
        rcases List.mem_cons.mp hr with h | h
        · rw [h]
          exact htake_ne
        · rw [hbt] at ih3
          exact ih3 r h
      · intro r hr
        rcases List.mem_cons.mp hr with h | h
        · subst h
          refine ⟨List.length_take_le _ _, ?_⟩
          exact (hRlt.sublist (List.take_sublist _ _)).imp
            (fun hlt => Nat.le_of_lt hlt)
        · exact ih4 r h

/-- C2: for an owner whose stored items have pairwise distinct `created_at`
and more matching items than the (in-range) limit, repeatedly calling
text-mode `list_items` feeding each `nextCursor` back as the cursor yields
pages that together contain each matching item exactly once (their
concatenation is a permutation of the matching set), each page capped at
`limit` and ordered by `created_at` descending; the chain ends at the first
empty page, which is the one carrying `nextCursor = null`, and all earlier
pages are non-empty. -/
theorem claim2_pagination_roundtrip (db : List Item) (owner : String)
    (q : Query) (limit : Nat) (hlim1 : 1 ≤ limit) (hlim100 : limit ≤ 100)
    (hdist : (db.filter (fun it => it.owner_id == owner)).Pairwise
      (fun a b => a.created_at ≠ b.created_at))
    (hN : limit < (db.filter (textMatches owner q)).length) :
    List.Perm
      (joinPages (runChain (fun c => textListItems db owner q limit c) none
        ((db.filter (textMatches owner q)).length + 1)))
      (db.filter (textMatches owner q)) ∧
    (∀ r ∈ runChain (fun c => textListItems db owner q limit c) none
        ((db.filter (textMatches owner q)).length + 1),
      r.items.length ≤ limit ∧ r.items.Pairwise createdDesc) ∧
    (runChain (fun c => textListItems db owner q limit c) none
        ((db.filter (textMatches owner q)).length + 1)).getLast? =
      some { items := [], nextCursor := none, search_type := "text" } ∧
    (∀ r ∈ (runChain (fun c => textListItems db owner q limit c) none
        ((db.filter (textMatches owner q)).length + 1)).dropLast,
      r.items ≠ []) := by
  have hlimit : clampLimit limit = limit := by
    rw [clampLimit]
    omega
  have hdM : (db.filter (textMatches owner q)).Pairwise
      (fun a b => a.created_at ≠ b.created_at) := by
    have hsub : List.Sublist (db.filter (textMatches owner q))
        (db.filter (fun it => it.owner_id == owner)) :=
      List.monotone_filter_right db
        (fun a ha => by rw [textMatches_owner ha]; simp)
    exact List.Pairwise.sublist hsub hdist
  have hS_lt : (sortByCreatedDesc (db.filter (textMatches owner
      q))).Pairwise createdLt :=
    pairwise_createdLt (List.sorted_insertionSort _ _)
      (sortByCreatedDesc_ne hdM)
  have hpage : ∀ c, (fun c2 => textListItems db owner q limit c2) c =
      { items := ((sortByCreatedDesc (db.filter (textMatches owner
            q))).filter (cursorOk c)).take limit
        nextCursor := (((sortByCreatedDesc (db.filter (textMatches owner
            q))).filter (cursorOk c)).take limit).getLast?.map
          (fun it => it.created_at)
        search_type := "text" } := by
    intro c
    simp only [textListItems]
    rw [sort_filter_comm _ _ hdM, hlimit]
  have hfe : (sortByCreatedDesc (db.filter (textMatches owner q))).filter
      (cursorOk none) = sortByCreatedDesc (db.filter (textMatches owner q))
    := List.filter_eq_self.mpr (fun a _ => rfl)
  have hfuel : ((sortByCreatedDesc (db.filter (textMatches owner
      q))).filter (cursorOk none)).length <
      (db.filter (textMatches owner q)).length + 1 := by
    rw [hfe]
    have hl : (sortByCreatedDesc (db.filter (textMatches owner q))).length
        = (db.filter (textMatches owner q)).length :=
      (List.perm_insertionSort createdDesc _).length_eq
    omega
  obtain ⟨h1, h2, h3, h4⟩ := runChain_spec
    (fun c => textListItems db owner q limit c)
    (sortByCreatedDesc (db.filter (textMatches owner q))) limit hlim1 hS_lt
    hpage ((db.filter (textMatches owner q)).length + 1) none hfuel
  refine ⟨?_, fun r hr => h4 r hr, h2, h3⟩
  rw [h1, hfe]
  exact List.perm_insertionSort createdDesc _

/-- Witness for C2: three one-owner items with timestamps 1, 2, 3 and
limit 1. -/
theorem claim2_witness :
    (1 ≤ 1) ∧ (1 ≤ 100) ∧
    ((fixPagedDb.filter (fun it => it.owner_id == "A")).Pairwise
      (fun a b => a.created_at ≠ b.created_at)) ∧
    (1 < (fixPagedDb.filter (textMatches "A" {})).length) ∧
    (List.Perm
      (joinPages (runChain (fun c => textListItems fixPagedDb "A" {} 1 c)
        none ((fixPagedDb.filter (textMatches "A" {})).length + 1)))
      (fixPagedDb.filter (textMatches "A" {})) ∧
    (∀ r ∈ runChain (fun c => textListItems fixPagedDb "A" {} 1 c) none
        ((fixPagedDb.filter (textMatches "A" {})).length + 1),
      r.items.length ≤ 1 ∧ r.items.Pairwise createdDesc) ∧
    (runChain (fun c => textListItems fixPagedDb "A" {} 1 c) none
        ((fixPagedDb.filter (textMatches "A" {})).length + 1)).getLast? =
      some { items := [], nextCursor := none, search_type := "text" } ∧
    (∀ r ∈ (runChain (fun c => textListItems fixPagedDb "A" {} 1 c) none
        ((fixPagedDb.filter (textMatches "A" {})).length + 1)).dropLast,
      r.items ≠ [])) :=
  ⟨by decide, by decide, by decide, by decide,
    claim2_pagination_roundtrip fixPagedDb "A" {} 1 (by decide) (by decide)
      (by decide) (by decide)⟩

end Rolodex
